import Mathlib

/-!
Shallow embedding of the port-forwarding and local-broker core of
gh-ado-codespaces (port-monitor.go, port.go, azure-auth.go, notification.go).

Go maps are modelled as association lists whose lookup returns the Go zero
value for missing keys; process handles (`*exec.Cmd`) are modelled abstractly;
external effects (spawning a forwarding child, killing a process, writing a
log line) are returned as explicit effect lists so that theorems can count
them.  JSON syntax parsing (`encoding/json` detecting whether a byte string is
valid JSON) is an external collaborator and is modelled by handing the
functions an `Option Json` value; the struct-unmarshalling dispatch that the
repository's code performs on the decoded value is modelled faithfully
(missing fields keep the Go zero value, `null` leaves a field untouched,
type-mismatched fields make the whole unmarshal fail, later duplicate keys
overwrite earlier ones).
-/

/-- Model of Go's `*exec.Cmd`: `process` is `none` while the underlying OS
process has not started (`cmd.Process == nil`); `some h` holds an abstract
handle for the started process. -/
structure ExecCmd where
  process : Option Nat
deriving Repr, DecidableEq

/-- `portForwardInfo` from port-monitor.go: tracks information about a port
forwarding process: the `active` flag and the (nilable) command handle. -/
structure portForwardInfo where
  active : Bool
  cmd : Option ExecCmd
deriving Repr, DecidableEq

/-- The Go zero value `portForwardInfo{}`: inactive, nil command. -/
def portForwardInfo.zero : portForwardInfo := ⟨false, none⟩

/-- Go's `map[int]portForwardInfo`, as an association list. -/
abbrev PortForwards := List (Int × portForwardInfo)

/-- Reading `portForwards[p]`: a missing key yields the zero value, exactly as
a Go map read does. -/
def mapLookup (m : PortForwards) (p : Int) : portForwardInfo :=
  match m with
  | [] => portForwardInfo.zero
  | (q, v) :: rest => if q = p then v else mapLookup rest p

/-- Writing `portForwards[p] = v`: overwrite the existing entry in place, or
append a new entry when the key is absent. -/
def mapInsert (m : PortForwards) (p : Int) (v : portForwardInfo) : PortForwards :=
  match m with
  | [] => [(p, v)]
  | (q, w) :: rest => if q = p then (p, v) :: rest else (q, w) :: mapInsert rest p v

/-- `PortMessage` from port-monitor.go (field names follow the JSON tags
`type`/`action`/`port`/`protocol`/`timestamp` of the Go struct). -/
structure PortMessage where
  type : String
  action : String
  port : Int
  protocol : String
  timestamp : String
deriving Repr, DecidableEq

/-- `LogMessage` from port-monitor.go. -/
structure LogMessage where
  type : String
  message : String
  timestamp : String
deriving Repr, DecidableEq

/-- `ReversePortForward` from port.go. -/
structure ReversePortForward where
  port : Int
  description : String
  enabled : Bool
  alwaysForward : Bool
deriving Repr, DecidableEq

/-- `WellKnownPorts` from port.go: the static reverse-forward registry. -/
def WellKnownPorts : List ReversePortForward :=
  [⟨1234, "LM Studio", true, false⟩,
   ⟨9222, "Chrome DevTools", true, false⟩,
   ⟨11434, "Ollama", true, false⟩]

/-- Modelled from the spec: `IsReverseForwardedPort` is called by
`handlePortMessage` in port-monitor.go but its defining file is not among the
provided sources.  Spec §4.3: "`IsReverseForwarded(port)`: true iff `port`
appears in the registry with `enabled=true`" — registry membership, not local
liveness, gates the exclusion. -/
def IsReverseForwardedPort (port : Int) : Bool :=
  WellKnownPorts.any fun f => f.enabled && (f.port == port)

/-- One diagnostic log-file append (`logDebug`), recorded abstractly. -/
inductive LogEntry where
  | rawLine
  | monitorLog (msg : String)
  | reverseSkip (port : Int)
  | boundStart (port : Int)
  | unboundStop (port : Int)
deriving Repr, DecidableEq

/-- The observable outcome of one event-processing step: the updated forward
map, the ports for which a forwarding child was spawned, the handles of the
processes that were killed, and the diagnostic log appends. -/
structure HandleResult where
  portForwards : PortForwards
  spawned : List Int
  killed : List Nat
  log : List LogEntry
deriving Repr, DecidableEq

/-- `handlePortMessage` from port-monitor.go.  `fresh` stands for the
`*exec.Cmd` value returned by `startPortForwarding` when a spawn happens
(its `Process` field may still be nil at insertion time). -/
def handlePortMessage (msg : PortMessage) (portForwards : PortForwards)
    (fresh : ExecCmd) : HandleResult :=
  if msg.action = "bound" then
    if IsReverseForwardedPort msg.port then
      ⟨portForwards, [], [], [.reverseSkip msg.port]⟩
    else
      let info := mapLookup portForwards msg.port
      if !info.active then
        ⟨mapInsert portForwards msg.port ⟨true, some fresh⟩, [msg.port], [],
          [.boundStart msg.port]⟩
      else
        ⟨portForwards, [], [], []⟩
  else if msg.action = "unbound" then
    let info := mapLookup portForwards msg.port
    let killedNow : List Nat :=
      if info.active then
        match info.cmd with
        | some c =>
          match c.process with
          | some h => [h]
          | none => []
        | none => []
      else []
    ⟨mapInsert portForwards msg.port ⟨false, none⟩, [], killedNow,
      if killedNow.isEmpty then [] else [.unboundStop msg.port]⟩
  else
    ⟨portForwards, [], [], []⟩

/-- Outcome of `cleanupPortForwards`: the map as the function leaves it and
the handles it killed. -/
structure CleanupResult where
  portForwards : PortForwards
  killed : List Nat
deriving Repr, DecidableEq

/-- `cleanupPortForwards` from port-monitor.go: iterate all entries and kill
the process of every entry with `active && cmd != nil && cmd.Process != nil`.
The loop only reads the map; no entry is written. -/
def cleanupPortForwards (portForwards : PortForwards) : CleanupResult :=
  ⟨portForwards,
   portForwards.filterMap fun kv =>
     if kv.2.active then
       match kv.2.cmd with
       | some c => c.process
       | none => none
     else none⟩

/-- A decoded JSON value, as `encoding/json` sees it after a successful syntax
parse.  Integer-valued numeric literals are distinguished from non-integer
ones because Go's unmarshal into an `int` field accepts only the former. -/
inductive Json where
  | null
  | bool (b : Bool)
  | num (n : Int)
  | nonIntNum
  | str (s : String)
  | arr (elems : List Json)
  | obj (fields : List (String × Json))

/-- Go unmarshal of a JSON value into a `string` struct field: a string sets
the field, `null` leaves it untouched, anything else is a type error. -/
def setStringField (cur : String) (v : Json) : Option String :=
  match v with
  | .str s => some s
  | .null => some cur
  | _ => none

/-- Go unmarshal of a JSON value into an `int` struct field: an integer
literal sets the field, `null` leaves it untouched, anything else (including
a fractional literal) is a type error. -/
def setIntField (cur : Int) (v : Json) : Option Int :=
  match v with
  | .num n => some n
  | .null => some cur
  | _ => none

/-- The anonymous `struct { Type string }` used by `runAndProcessOutput` to
peek at the `type` discriminator. -/
structure TypeCheck where
  type : String
deriving Repr, DecidableEq

/-- Go unmarshal into the `typeCheck` struct: `null` is a no-op, an object is
folded field by field (unknown keys ignored, later duplicates overwrite),
any other value is a type error. -/
def unmarshalTypeCheck (j : Json) : Option TypeCheck :=
  match j with
  | .null => some ⟨""⟩
  | .obj fields =>
    fields.foldl
      (fun acc kv =>
        acc.bind fun tc =>
          if kv.1 = "type" then (setStringField tc.type kv.2).map (⟨·⟩)
          else some tc)
      (some ⟨""⟩)
  | _ => none

/-- Go unmarshal into `PortMessage` (tags `type`, `action`, `port`,
`protocol`, `timestamp`). -/
def unmarshalPortMessage (j : Json) : Option PortMessage :=
  match j with
  | .null => some ⟨"", "", 0, "", ""⟩
  | .obj fields =>
    fields.foldl
      (fun acc kv =>
        acc.bind fun m =>
          if kv.1 = "type" then
            (setStringField m.type kv.2).map fun s => { m with type := s }
          else if kv.1 = "action" then
            (setStringField m.action kv.2).map fun s => { m with action := s }
          else if kv.1 = "port" then
            (setIntField m.port kv.2).map fun n => { m with port := n }
          else if kv.1 = "protocol" then
            (setStringField m.protocol kv.2).map fun s => { m with protocol := s }
          else if kv.1 = "timestamp" then
            (setStringField m.timestamp kv.2).map fun s => { m with timestamp := s }
          else some m)
      (some ⟨"", "", 0, "", ""⟩)
  | _ => none

/-- Go unmarshal into `LogMessage` (tags `type`, `message`, `timestamp`). -/
def unmarshalLogMessage (j : Json) : Option LogMessage :=
  match j with
  | .null => some ⟨"", "", ""⟩
  | .obj fields =>
    fields.foldl
      (fun acc kv =>
        acc.bind fun m =>
          if kv.1 = "type" then
            (setStringField m.type kv.2).map fun s => { m with type := s }
          else if kv.1 = "message" then
            (setStringField m.message kv.2).map fun s => { m with message := s }
          else if kv.1 = "timestamp" then
            (setStringField m.timestamp kv.2).map fun s => { m with timestamp := s }
          else some m)
      (some ⟨"", "", ""⟩)
  | _ => none

/-- The per-line dispatch of the stdout-reader goroutine in
`runAndProcessOutput` (port-monitor.go).  `parsed` is the result of the
syntactic `json.Unmarshal` into a `json.RawMessage`: `none` when the line is
not valid JSON (the line is then only logged), `some j` otherwise.  On a
`"port"` line the decoded message is handed to `handlePortMessage`; on a
`"log"` line the message is only logged; every unmarshal failure or unknown
`type` just skips the line (`continue`). -/
def processLine (parsed : Option Json) (portForwards : PortForwards)
    (fresh : ExecCmd) : HandleResult :=
  match parsed with
  | none => ⟨portForwards, [], [], [.rawLine]⟩
  | some message =>
    match unmarshalTypeCheck message with
    | none => ⟨portForwards, [], [], []⟩
    | some typeCheck =>
      if typeCheck.type = "port" then
        match unmarshalPortMessage message with
        | none => ⟨portForwards, [], [], []⟩
        | some portMsg => handlePortMessage portMsg portForwards fresh
      else if typeCheck.type = "log" then
        match unmarshalLogMessage message with
        | none => ⟨portForwards, [], [], []⟩
        | some logMsg => ⟨portForwards, [], [], [.monitorLog logMsg.message]⟩
      else
        ⟨portForwards, [], [], []⟩

/-- `isPortBound` from port.go: `net.Dial("tcp", "localhost:<port>")`, `false`
on any dial error, `true` otherwise.  The TCP environment is the oracle
`dialOk`, giving for each port whether the local connect probe succeeds. -/
def isPortBound (dialOk : Int → Bool) (port : Int) : Bool :=
  dialOk port

/-- The loop body of `GetBoundReverseForwards` (port.go), over an explicit
registry list: skip entries with `!Enabled` (`continue`), then append the
entry when `AlwaysForward || isPortBound(port)`. -/
def GetBoundReverseForwardsOver (registry : List ReversePortForward)
    (dialOk : Int → Bool) : List ReversePortForward :=
  match registry with
  | [] => []
  | forward :: rest =>
    if !forward.enabled then GetBoundReverseForwardsOver rest dialOk
    else if forward.alwaysForward || isPortBound dialOk forward.port then
      forward :: GetBoundReverseForwardsOver rest dialOk
    else
      GetBoundReverseForwardsOver rest dialOk

/-- `GetBoundReverseForwards` from port.go, reading the global
`WellKnownPorts` registry. -/
def GetBoundReverseForwards (dialOk : Int → Bool) : List ReversePortForward :=
  GetBoundReverseForwardsOver WellKnownPorts dialOk

/-- `TokenRequest` from azure-auth.go (JSON tags `type` and `data.scopes`;
`Scopes` is a `*string`, hence an `Option`). -/
structure TokenRequest where
  type : String
  scopes : Option String
deriving Repr, DecidableEq

/-- Go unmarshal of a JSON value into the `*string` field `Scopes`: `null`
sets the pointer to nil, a string allocates, anything else is a type error. -/
def setScopesField (_cur : Option String) (v : Json) : Option (Option String) :=
  match v with
  | .null => some none
  | .str s => some (some s)
  | _ => none

/-- Go unmarshal of the nested `data` struct of `TokenRequest`. -/
def unmarshalTokenRequestData (cur : Option String) (v : Json) :
    Option (Option String) :=
  match v with
  | .null => some cur
  | .obj fields =>
    fields.foldl
      (fun acc kv =>
        acc.bind fun scopes =>
          if kv.1 = "scopes" then setScopesField scopes kv.2
          else some scopes)
      (some cur)
  | _ => none

/-- Go unmarshal into `TokenRequest` (tags `type`, `data`). -/
def unmarshalTokenRequest (j : Json) : Option TokenRequest :=
  match j with
  | .null => some ⟨"", none⟩
  | .obj fields =>
    fields.foldl
      (fun acc kv =>
        acc.bind fun req =>
          if kv.1 = "type" then
            (setStringField req.type kv.2).map fun s => { req with type := s }
          else if kv.1 = "data" then
            (unmarshalTokenRequestData req.scopes kv.2).map fun sc =>
              { req with scopes := sc }
          else some req)
      (some ⟨"", none⟩)
  | _ => none

/-- Result of `cred.GetToken`: either a token or an error message. -/
inductive GetTokenResult where
  | ok (token : String)
  | err (msg : String)
deriving Repr, DecidableEq

/-- The default Azure DevOps scope used when the request carries no scopes. -/
def defaultScope : String := "499b84ac-1321-427f-aa17-267ca6975798/.default"

/-- The scope computation of `handleConnection` (azure-auth.go): nil or empty
`Scopes` selects the default scope, otherwise the string is split on spaces. -/
def computeScopes (scopes : Option String) : List String :=
  match scopes with
  | none => [defaultScope]
  | some s => if s = "" then [defaultScope] else s.splitOn " "

/-- One framed write on the broker connection: a JSON document (drawn here as
the value `json.Marshal` serialises, with struct-field order preserved)
followed by the sentinel byte. -/
structure BrokerFrame where
  json : Json
  sentinel : Char

/-- The `'\f'` (form feed, 0x0C) frame delimiter of the credential broker. -/
def formFeed : Char := Char.ofNat 12

/-- Per-frame step of `handleConnection` (azure-auth.go).  `parsed` is the
syntactic parse of the bytes read up to (and excluding) the `'\f'` delimiter:
`none` when `json.Unmarshal` fails at the syntax level.  Unmarshal failures
and unknown `type` values write nothing (`continue` / log-only); a
`getAccessToken` request always gets a response frame: an `accessToken` frame
on success, an explicit `error` frame when `GetToken` fails. -/
def handleFrame (parsed : Option Json)
    (getToken : List String → GetTokenResult) : Option BrokerFrame :=
  match parsed with
  | none => none
  | some j =>
    match unmarshalTokenRequest j with
    | none => none
    | some tokenReq =>
      if tokenReq.type = "getAccessToken" then
        match getToken (computeScopes tokenReq.scopes) with
        | .err e =>
          some ⟨Json.obj [("type", .str "error"),
                          ("error", .str ("Failed to get access token: " ++ e))],
                formFeed⟩
        | .ok t =>
          some ⟨Json.obj [("type", .str "accessToken"), ("data", .str t)],
                formFeed⟩
      else none

/-- The read loop of `handleConnection` over a whole connection: each incoming
frame is handled in order and the written response frames are collected (the
loop `continue`s after every frame; only read/write I/O errors, which are
environment failures outside this model, break it). -/
def handleConnection (frames : List (Option Json))
    (getToken : List String → GetTokenResult) : List BrokerFrame :=
  match frames with
  | [] => []
  | f :: rest =>
    match handleFrame f getToken with
    | some resp => resp :: handleConnection rest getToken
    | none => handleConnection rest getToken

/-- `NotificationRequest` from notification.go (JSON tags `title`,
`message`). -/
structure NotificationRequest where
  title : String
  message : String
deriving Repr, DecidableEq

/-- Go unmarshal into `NotificationRequest`. -/
def unmarshalNotificationRequest (j : Json) : Option NotificationRequest :=
  match j with
  | .null => some ⟨"", ""⟩
  | .obj fields =>
    fields.foldl
      (fun acc kv =>
        acc.bind fun m =>
          if kv.1 = "title" then
            (setStringField m.title kv.2).map fun s => { m with title := s }
          else if kv.1 = "message" then
            (setStringField m.message kv.2).map fun s => { m with message := s }
          else some m)
      (some ⟨"", ""⟩)
  | _ => none

/-- The observable outcome of one notification request: HTTP status, response
body text, and whether an OS notification dispatch was attempted. -/
structure NotifyOutcome where
  status : Nat
  body : String
  notified : Bool
deriving Repr, DecidableEq

/-- `handleNotification` from notification.go.  `body` is the syntactic JSON
decode of the request body (`none` when `json.NewDecoder(...).Decode` fails);
`notifyOk` is the oracle for whether `beeep.Notify` succeeds. -/
def handleNotification (method : String) (body : Option Json)
    (notifyOk : Bool) : NotifyOutcome :=
  if method ≠ "POST" then ⟨405, "Method not allowed", false⟩
  else
    match body with
    | none => ⟨400, "Invalid JSON", false⟩
    | some j =>
      match unmarshalNotificationRequest j with
      | none => ⟨400, "Invalid JSON", false⟩
      | some req =>
        if req.title = "" then ⟨400, "Missing title", false⟩
        else if req.message = "" then ⟨400, "Missing message", false⟩
        else if notifyOk then ⟨200, "OK", true⟩
        else ⟨500, "Failed to send notification", true⟩


/-! ## Map lemmas -/

theorem mapLookup_mapInsert_self (m : PortForwards) (p : Int)
    (v : portForwardInfo) : mapLookup (mapInsert m p v) p = v := by
  induction m with
  | nil => simp [mapInsert, mapLookup]
  | cons kv rest ih =>
    obtain ⟨q, w⟩ := kv
    by_cases h : q = p
    · simp [mapInsert, mapLookup, h]
    · simp [mapInsert, mapLookup, h, ih]

theorem mapLookup_mapInsert_ne (m : PortForwards) (p q : Int)
    (v : portForwardInfo) (h : q ≠ p) :
    mapLookup (mapInsert m p v) q = mapLookup m q := by
  have hpq : ¬ p = q := fun hpq => h hpq.symm
  induction m with
  | nil =>
    simp only [mapInsert, mapLookup]
    rw [if_neg hpq]
  | cons kv rest ih =>
    obtain ⟨r, w⟩ := kv
    by_cases hr : r = p
    · subst hr
      simp only [mapInsert, if_pos rfl, mapLookup]
      rw [if_neg hpq, if_neg hpq]
    · simp only [mapInsert, if_neg hr, mapLookup]
      by_cases hq : r = q
      · rw [if_pos hq, if_pos hq]
      · rw [if_neg hq, if_neg hq, ih]

theorem mapInsert_mapInsert_same (m : PortForwards) (p : Int)
    (v : portForwardInfo) :
    mapInsert (mapInsert m p v) p v = mapInsert m p v := by
  induction m with
  | nil => simp [mapInsert]
  | cons kv rest ih =>
    obtain ⟨q, w⟩ := kv
    by_cases h : q = p
    · simp [mapInsert, h]
    · simp [mapInsert, h, ih]

/-! ## C1 — exclusion invariant -/

/-- C1: for every port p that the reverse-service registry lists with
`enabled = true` (i.e. `IsReverseForwardedPort p` holds), processing a
`bound` event for p spawns no forward-tunnel process and leaves the forward
map untouched: `handlePortMessage` consults the registry and returns before
spawning. -/
theorem bound_reverse_forwarded_never_spawns
    (msg : PortMessage) (m : PortForwards) (fresh : ExecCmd)
    (hA : msg.action = "bound")
    (hR : IsReverseForwardedPort msg.port = true) :
    (handlePortMessage msg m fresh).spawned = [] ∧
    (handlePortMessage msg m fresh).killed = [] ∧
    (handlePortMessage msg m fresh).portForwards = m := by
  simp [handlePortMessage, hA, hR]

/-- C1 witness: port 1234 ("LM Studio") is reverse-forwarded, so a concrete
`bound` event for it spawns nothing. -/
theorem bound_reverse_forwarded_never_spawns_witness :
    (⟨"port", "bound", 1234, "tcp", "t"⟩ : PortMessage).action = "bound" ∧
    IsReverseForwardedPort 1234 = true ∧
    ((handlePortMessage ⟨"port", "bound", 1234, "tcp", "t"⟩ [] ⟨none⟩).spawned = [] ∧
     (handlePortMessage ⟨"port", "bound", 1234, "tcp", "t"⟩ [] ⟨none⟩).killed = [] ∧
     (handlePortMessage ⟨"port", "bound", 1234, "tcp", "t"⟩ [] ⟨none⟩).portForwards = []) :=
  ⟨rfl, by decide,
   bound_reverse_forwarded_never_spawns _ _ _ rfl (by decide)⟩

/-! ## C2 — shutdown -/

/-- C2 counterexample: `cleanupPortForwards` never writes to the map, so after
shutdown an entry that was active still has `active = true` and still holds
its process handle — the claim that every entry ends with `active = false`
and a cleared handle is false on the code. -/
theorem cleanup_leaves_entry_active :
    (mapLookup (cleanupPortForwards
        [(8080, ⟨true, some ⟨some 7⟩⟩)]).portForwards 8080).active = true ∧
    (mapLookup (cleanupPortForwards
        [(8080, ⟨true, some ⟨some 7⟩⟩)]).portForwards 8080).cmd ≠ none := by
  decide

/-- C2 amended: shutdown kills exactly the processes of still-active entries
(those with `active` set and a live process handle); the map itself is left
as it was — no `active` flag is reset and no handle is cleared (the map is
simply discarded when the monitor returns). -/
theorem cleanup_kills_active_and_leaves_map (m : PortForwards) :
    (cleanupPortForwards m).portForwards = m ∧
    (∀ p info c h, (p, info) ∈ m → info.active = true → info.cmd = some c →
        c.process = some h → h ∈ (cleanupPortForwards m).killed) ∧
    (∀ h, h ∈ (cleanupPortForwards m).killed →
        ∃ p info c, (p, info) ∈ m ∧ info.active = true ∧ info.cmd = some c ∧
          c.process = some h) := by
  refine ⟨rfl, ?_, ?_⟩
  · intro p info c h hmem hact hcmd hproc
    simp only [cleanupPortForwards, List.mem_filterMap]
    exact ⟨(p, info), hmem, by simp [hact, hcmd, hproc]⟩
  · intro h hmem
    simp only [cleanupPortForwards, List.mem_filterMap] at hmem
    obtain ⟨⟨p, info⟩, hpm, hf⟩ := hmem
    by_cases hact : info.active
    · cases hcmd : info.cmd with
      | none => simp [hact, hcmd] at hf
      | some c =>
        exact ⟨p, info, c, hpm, hact, hcmd, by simpa [hact, hcmd] using hf⟩
    · simp [hact] at hf

/-- C2 amended witness: a concrete map with one active entry; its handle is
killed and the map is returned unchanged. -/
theorem cleanup_kills_active_and_leaves_map_witness :
    7 ∈ (cleanupPortForwards [(8080, ⟨true, some ⟨some 7⟩⟩)]).killed ∧
    (cleanupPortForwards [(8080, ⟨true, some ⟨some 7⟩⟩)]).portForwards
      = [(8080, ⟨true, some ⟨some 7⟩⟩)] :=
  ⟨(cleanup_kills_active_and_leaves_map
      [(8080, ⟨true, some ⟨some 7⟩⟩)]).2.1 8080 ⟨true, some ⟨some 7⟩⟩ ⟨some 7⟩ 7
      (by simp) rfl rfl rfl,
   (cleanup_kills_active_and_leaves_map [(8080, ⟨true, some ⟨some 7⟩⟩)]).1⟩

/-! ## C3 — idempotent bind -/

/-- C3 counterexample: for port 1234 — a reverse-forwarded registry port —
two consecutive `bound` events spawn zero forwarding processes, not exactly
one. -/
theorem double_bound_reverse_port_spawns_zero :
    (handlePortMessage ⟨"port", "bound", 1234, "tcp", "t"⟩ [] ⟨none⟩).spawned.length
      + (handlePortMessage ⟨"port", "bound", 1234, "tcp", "t"⟩
          (handlePortMessage ⟨"port", "bound", 1234, "tcp", "t"⟩ [] ⟨none⟩).portForwards
          ⟨none⟩).spawned.length ≠ 1 := by
  decide

/-- C3 amended: for every port p that is not a reverse-forwarded registry
port, starting from a state in which p's entry is not active (as the claim's
own wording presupposes — the second call is a no-op *because the first made
the entry active*), two consecutive `bound` events for p spawn exactly one
forwarding process: the first spawns it, the second spawns nothing, kills
nothing and leaves the map unchanged. -/
theorem double_bound_spawns_once
    (msg : PortMessage) (m : PortForwards) (f1 f2 : ExecCmd)
    (hA : msg.action = "bound")
    (hR : IsReverseForwardedPort msg.port = false)
    (hI : (mapLookup m msg.port).active = false) :
    (handlePortMessage msg m f1).spawned = [msg.port] ∧
    (handlePortMessage msg (handlePortMessage msg m f1).portForwards f2).spawned = [] ∧
    (handlePortMessage msg (handlePortMessage msg m f1).portForwards f2).killed = [] ∧
    (handlePortMessage msg (handlePortMessage msg m f1).portForwards f2).portForwards
      = (handlePortMessage msg m f1).portForwards := by
  have h1 : handlePortMessage msg m f1
      = ⟨mapInsert m msg.port ⟨true, some f1⟩, [msg.port], [],
         [.boundStart msg.port]⟩ := by
    simp [handlePortMessage, hA, hR, hI]
  have h2 : (mapLookup (mapInsert m msg.port ⟨true, some f1⟩) msg.port).active
      = true := by
    rw [mapLookup_mapInsert_self]
  refine ⟨by rw [h1], ?_, ?_, ?_⟩ <;>
    · rw [h1]
      simp [handlePortMessage, hA, hR, h2]

/-- C3 amended witness: port 8080 from the empty map. -/
theorem double_bound_spawns_once_witness :
    (handlePortMessage ⟨"port", "bound", 8080, "tcp", "t"⟩ [] ⟨some 1⟩).spawned = [8080] ∧
    (handlePortMessage ⟨"port", "bound", 8080, "tcp", "t"⟩
        (handlePortMessage ⟨"port", "bound", 8080, "tcp", "t"⟩ [] ⟨some 1⟩).portForwards
        ⟨some 2⟩).spawned = [] ∧
    (handlePortMessage ⟨"port", "bound", 8080, "tcp", "t"⟩
        (handlePortMessage ⟨"port", "bound", 8080, "tcp", "t"⟩ [] ⟨some 1⟩).portForwards
        ⟨some 2⟩).killed = [] ∧
    (handlePortMessage ⟨"port", "bound", 8080, "tcp", "t"⟩
        (handlePortMessage ⟨"port", "bound", 8080, "tcp", "t"⟩ [] ⟨some 1⟩).portForwards
        ⟨some 2⟩).portForwards
      = (handlePortMessage ⟨"port", "bound", 8080, "tcp", "t"⟩ [] ⟨some 1⟩).portForwards :=
  double_bound_spawns_once _ _ _ _ rfl (by decide) (by decide)

/-! ## C4 — idempotent unbind -/

/-- C4 counterexample: an `unbound` event for a port with no entry does not
leave the map unchanged — it creates an explicit inactive entry (the Go code
unconditionally writes `portForwards[msg.Port] = {active: false, cmd: nil}`). -/
theorem unbound_absent_creates_entry :
    (handlePortMessage ⟨"port", "unbound", 8080, "tcp", "t"⟩ [] ⟨none⟩).portForwards
      ≠ ([] : PortForwards) := by
  decide

/-- C4 amended: for a port whose entry is absent or inactive, an `unbound`
event kills no process and spawns nothing; instead of leaving the map
literally unchanged it writes the explicit inactive entry
`{active: false, cmd: nil}` for that port (creating it when absent), leaving
the lookup of every other port unchanged; a second consecutive `unbound` then
kills nothing and leaves the map identical. -/
theorem unbound_inactive_noop
    (msg : PortMessage) (m : PortForwards) (f1 f2 : ExecCmd)
    (hA : msg.action = "unbound")
    (hI : (mapLookup m msg.port).active = false) :
    (handlePortMessage msg m f1).killed = [] ∧
    (handlePortMessage msg m f1).spawned = [] ∧
    (handlePortMessage msg m f1).portForwards
      = mapInsert m msg.port ⟨false, none⟩ ∧
    (∀ q, q ≠ msg.port →
      mapLookup (handlePortMessage msg m f1).portForwards q = mapLookup m q) ∧
    (handlePortMessage msg (handlePortMessage msg m f1).portForwards f2).killed = [] ∧
    (handlePortMessage msg (handlePortMessage msg m f1).portForwards f2).portForwards
      = (handlePortMessage msg m f1).portForwards := by
  have hne : ¬ msg.action = "bound" := by
    rw [hA]; decide
  have h1 : handlePortMessage msg m f1
      = ⟨mapInsert m msg.port ⟨false, none⟩, [], [], []⟩ := by
    simp [handlePortMessage, hne, hA, hI]
  have h2 : mapLookup (mapInsert m msg.port ⟨false, none⟩) msg.port
      = ⟨false, none⟩ := mapLookup_mapInsert_self m msg.port ⟨false, none⟩
  refine ⟨by rw [h1], by rw [h1], by rw [h1], ?_, ?_, ?_⟩
  · intro q hq
    rw [h1]
    exact mapLookup_mapInsert_ne m msg.port q ⟨false, none⟩ hq
  · rw [h1]
    simp [handlePortMessage, hne, hA, h2]
  · rw [h1]
    simp [handlePortMessage, hne, hA, h2, mapInsert_mapInsert_same]

/-- C4 amended witness: two consecutive `unbound` events for port 8080 on the
empty map. -/
theorem unbound_inactive_noop_witness :
    (handlePortMessage ⟨"port", "unbound", 8080, "tcp", "t"⟩ [] ⟨none⟩).killed = [] ∧
    (handlePortMessage ⟨"port", "unbound", 8080, "tcp", "t"⟩ [] ⟨none⟩).spawned = [] ∧
    (handlePortMessage ⟨"port", "unbound", 8080, "tcp", "t"⟩ [] ⟨none⟩).portForwards
      = mapInsert [] 8080 ⟨false, none⟩ ∧
    (∀ q, q ≠ (8080 : Int) →
      mapLookup (handlePortMessage ⟨"port", "unbound", 8080, "tcp", "t"⟩ [] ⟨none⟩).portForwards q
        = mapLookup [] q) ∧
    (handlePortMessage ⟨"port", "unbound", 8080, "tcp", "t"⟩
        (handlePortMessage ⟨"port", "unbound", 8080, "tcp", "t"⟩ [] ⟨none⟩).portForwards
        ⟨none⟩).killed = [] ∧
    (handlePortMessage ⟨"port", "unbound", 8080, "tcp", "t"⟩
        (handlePortMessage ⟨"port", "unbound", 8080, "tcp", "t"⟩ [] ⟨none⟩).portForwards
        ⟨none⟩).portForwards
      = (handlePortMessage ⟨"port", "unbound", 8080, "tcp", "t"⟩ [] ⟨none⟩).portForwards :=
  unbound_inactive_noop _ _ _ _ rfl (by decide)

/-! ## C5 — malformed port numbers -/

/-- C5 counterexample: a `bound` event whose port number is zero is *not*
discarded — the adapter hands it to `handlePortMessage`, which spawns a
forwarding process for port 0 and creates a forward-map entry. -/
theorem bound_event_port_zero_spawns :
    (processLine (some (.obj [("type", .str "port"), ("action", .str "bound"),
        ("port", .num 0), ("protocol", .str "tcp"), ("timestamp", .str "t")]))
      [] ⟨none⟩).spawned = [0] ∧
    (processLine (some (.obj [("type", .str "port"), ("action", .str "bound"),
        ("port", .num 0), ("protocol", .str "tcp"), ("timestamp", .str "t")]))
      [] ⟨none⟩).portForwards = [(0, ⟨true, some ⟨none⟩⟩)] :=
  ⟨rfl, rfl⟩

/-- C5 amended: a port event whose structured decode fails — in particular
one whose port number is not an integer — is discarded silently: nothing is
spawned or killed and the forward map is unchanged.  Zero or negative port
numbers, however, decode fine and are *not* treated as malformed: the event
is processed like any other. -/
theorem unparseable_port_event_discarded
    (j : Json) (m : PortForwards) (fresh : ExecCmd)
    (h : unmarshalPortMessage j = none) :
    (processLine (some j) m fresh).spawned = [] ∧
    (processLine (some j) m fresh).killed = [] ∧
    (processLine (some j) m fresh).portForwards = m := by
  cases htc : unmarshalTypeCheck j with
  | none => simp [processLine, htc]
  | some tc =>
    by_cases hp : tc.type = "port"
    · simp [processLine, htc, hp, h]
    · by_cases hl : tc.type = "log"
      · cases hlm : unmarshalLogMessage j with
        | none => simp [processLine, htc, hp, hl, hlm]
        | some lm => simp [processLine, htc, hp, hl, hlm]
      · simp [processLine, htc, hp, hl]

/-- C5 amended witness: a port event whose `port` field is the string
`"abc"`. -/
theorem unparseable_port_event_discarded_witness :
    (processLine (some (.obj [("type", .str "port"), ("action", .str "bound"),
        ("port", .str "abc")])) [(5, ⟨true, some ⟨some 3⟩⟩)] ⟨none⟩).spawned = [] ∧
    (processLine (some (.obj [("type", .str "port"), ("action", .str "bound"),
        ("port", .str "abc")])) [(5, ⟨true, some ⟨some 3⟩⟩)] ⟨none⟩).killed = [] ∧
    (processLine (some (.obj [("type", .str "port"), ("action", .str "bound"),
        ("port", .str "abc")])) [(5, ⟨true, some ⟨some 3⟩⟩)] ⟨none⟩).portForwards
      = [(5, ⟨true, some ⟨some 3⟩⟩)] :=
  unparseable_port_event_discarded _ _ _ rfl

/-! ## C6 — malformed lines -/

/-- C6: feeding the adapter a line that is not valid JSON, or valid JSON with
no `type` field / an unrecognised `type`, spawns nothing, kills nothing and
leaves the forward map unchanged; at most the raw line is appended to the
diagnostic log (the dispatch function is total, so the reader loop cannot
crash on such a line). -/
theorem malformed_line_no_forward_effect
    (parsed : Option Json) (m : PortForwards) (fresh : ExecCmd)
    (h : parsed = none ∨ ∃ j, parsed = some j ∧
      (unmarshalTypeCheck j = none ∨
       ∃ tc, unmarshalTypeCheck j = some tc ∧ tc.type ≠ "port" ∧ tc.type ≠ "log")) :
    (processLine parsed m fresh).spawned = [] ∧
    (processLine parsed m fresh).killed = [] ∧
    (processLine parsed m fresh).portForwards = m ∧
    ((processLine parsed m fresh).log = [] ∨
     (processLine parsed m fresh).log = [.rawLine]) := by
  rcases h with h | ⟨j, rfl, h⟩
  · subst h
    simp [processLine]
  · rcases h with h | ⟨tc, htc, hp, hl⟩
    · simp [processLine, h]
    · simp [processLine, htc, hp, hl]

/-- C6 witness: a JSON object with no `type` field, processed on a non-empty
map with an active entry. -/
theorem malformed_line_no_forward_effect_witness :
    (processLine (some (.obj [("foo", .str "bar")]))
        [(5, ⟨true, some ⟨some 3⟩⟩)] ⟨none⟩).spawned = [] ∧
    (processLine (some (.obj [("foo", .str "bar")]))
        [(5, ⟨true, some ⟨some 3⟩⟩)] ⟨none⟩).killed = [] ∧
    (processLine (some (.obj [("foo", .str "bar")]))
        [(5, ⟨true, some ⟨some 3⟩⟩)] ⟨none⟩).portForwards
      = [(5, ⟨true, some ⟨some 3⟩⟩)] ∧
    ((processLine (some (.obj [("foo", .str "bar")]))
        [(5, ⟨true, some ⟨some 3⟩⟩)] ⟨none⟩).log = [] ∨
     (processLine (some (.obj [("foo", .str "bar")]))
        [(5, ⟨true, some ⟨some 3⟩⟩)] ⟨none⟩).log = [.rawLine]) :=
  malformed_line_no_forward_effect _ _ _
    (Or.inr ⟨_, rfl, Or.inr ⟨⟨""⟩, rfl, by decide, by decide⟩⟩)

/-! ## C7 — reverse-forward active set -/

/-- Helper: the registry loop of `GetBoundReverseForwards` computes a filter
over the registry, in registry order. -/
theorem getBoundReverseForwardsOver_eq_filter
    (registry : List ReversePortForward) (dialOk : Int → Bool) :
    GetBoundReverseForwardsOver registry dialOk
      = registry.filter fun e => e.enabled && (e.alwaysForward || dialOk e.port) := by
  induction registry with
  | nil => rfl
  | cons f rest ih =>
    cases he : f.enabled with
    | false => simp [GetBoundReverseForwardsOver, List.filter, he, ih]
    | true =>
      cases ha : f.alwaysForward || dialOk f.port with
      | false =>
        simp [GetBoundReverseForwardsOver, List.filter, isPortBound, he, ha, ih]
      | true =>
        simp [GetBoundReverseForwardsOver, List.filter, isPortBound, he, ha, ih]

/-- C7: `GetBoundReverseForwards` returns exactly the registry entries, in
registry order, that are enabled and either marked `alwaysForward` or whose
local TCP probe succeeds; disabled entries are never included and a failed
probe merely omits the entry (the function returns a plain list — it has no
error outcome). -/
theorem getBoundReverseForwards_spec (dialOk : Int → Bool) :
    GetBoundReverseForwards dialOk
      = WellKnownPorts.filter
          (fun e => e.enabled && (e.alwaysForward || dialOk e.port)) ∧
    ∀ e ∈ GetBoundReverseForwards dialOk, e.enabled = true := by
  constructor
  · exact getBoundReverseForwardsOver_eq_filter WellKnownPorts dialOk
  · intro e he
    rw [GetBoundReverseForwards,
      getBoundReverseForwardsOver_eq_filter WellKnownPorts dialOk] at he
    have hmem := List.of_mem_filter he
    have : e.enabled = true ∧ (e.alwaysForward = true ∨ dialOk e.port = true) := by
      simpa using hmem
    exact this.1

/-! ## C8 — credential broker always answers getAccessToken -/

/-- C8: on a well-formed `getAccessToken` frame the credential broker always
writes a response frame terminated by the `'\f'` sentinel on the same
connection: an explicit `{"type":"error","error":...}` frame when token
acquisition fails, and a `{"type":"accessToken","data":token}` frame when it
succeeds — never no response. -/
theorem token_request_always_answered
    (j : Json) (req : TokenRequest)
    (getToken : List String → GetTokenResult)
    (hj : unmarshalTokenRequest j = some req)
    (ht : req.type = "getAccessToken") :
    (∀ e, getToken (computeScopes req.scopes) = .err e →
      handleFrame (some j) getToken
        = some ⟨Json.obj [("type", .str "error"),
            ("error", .str ("Failed to get access token: " ++ e))], formFeed⟩) ∧
    (∀ t, getToken (computeScopes req.scopes) = .ok t →
      handleFrame (some j) getToken
        = some ⟨Json.obj [("type", .str "accessToken"), ("data", .str t)],
            formFeed⟩) := by
  constructor
  · intro e he
    simp [handleFrame, hj, ht, he]
  · intro t htk
    simp [handleFrame, hj, ht, htk]

/-- C8 witness: the spec's scenario — `{"type":"getAccessToken","data":{}}`
with no scopes and an unreachable identity provider yields the error frame;
the same request with a working provider yields the token frame. -/
theorem token_request_always_answered_witness :
    handleFrame (some (.obj [("type", .str "getAccessToken"), ("data", .obj [])]))
        (fun _ => .err "identity provider unreachable")
      = some ⟨Json.obj [("type", .str "error"),
          ("error", .str "Failed to get access token: identity provider unreachable")],
          formFeed⟩ ∧
    handleFrame (some (.obj [("type", .str "getAccessToken"), ("data", .obj [])]))
        (fun _ => .ok "tok123")
      = some ⟨Json.obj [("type", .str "accessToken"), ("data", .str "tok123")],
          formFeed⟩ :=
  ⟨(token_request_always_answered
      (.obj [("type", .str "getAccessToken"), ("data", .obj [])])
      ⟨"getAccessToken", none⟩ (fun _ => .err "identity provider unreachable")
      rfl rfl).1 "identity provider unreachable" rfl,
   (token_request_always_answered
      (.obj [("type", .str "getAccessToken"), ("data", .obj [])])
      ⟨"getAccessToken", none⟩ (fun _ => .ok "tok123") rfl rfl).2 "tok123" rfl⟩

/-! ## C9 — notification broker validation -/

/-- C9: for a `POST /notify` request whose JSON body decodes, an empty (or
missing, hence zero-valued) `title` or `message` yields status 400 with no
notification attempted; when both are non-empty, the OS dispatch is
attempted and the status is 200 on success and 500 on failure. -/
theorem notify_validation_and_dispatch
    (body : Json) (req : NotificationRequest) (notifyOk : Bool)
    (hb : unmarshalNotificationRequest body = some req) :
    ((req.title = "" ∨ req.message = "") →
      (handleNotification "POST" (some body) notifyOk).status = 400 ∧
      (handleNotification "POST" (some body) notifyOk).notified = false) ∧
    (req.title ≠ "" → req.message ≠ "" →
      (notifyOk = true →
        (handleNotification "POST" (some body) notifyOk).status = 200 ∧
        (handleNotification "POST" (some body) notifyOk).notified = true) ∧
      (notifyOk = false →
        (handleNotification "POST" (some body) notifyOk).status = 500 ∧
        (handleNotification "POST" (some body) notifyOk).notified = true)) := by
  constructor
  · rintro (ht | hm)
    · simp [handleNotification, hb, ht]
    · by_cases ht' : req.title = ""
      · simp [handleNotification, hb, ht']
      · simp [handleNotification, hb, ht', hm]
  · intro ht hm
    constructor
    · rintro rfl
      simp [handleNotification, hb, ht, hm]
    · rintro rfl
      simp [handleNotification, hb, ht, hm]

/-- C9 witness: the spec's scenario `{"title":"","message":"x"}` gets 400 with
no dispatch; `{"title":"a","message":"x"}` gets 200 on dispatch success. -/
theorem notify_validation_and_dispatch_witness :
    ((handleNotification "POST"
        (some (.obj [("title", .str ""), ("message", .str "x")])) true).status = 400 ∧
     (handleNotification "POST"
        (some (.obj [("title", .str ""), ("message", .str "x")])) true).notified = false) ∧
    ((handleNotification "POST"
        (some (.obj [("title", .str "a"), ("message", .str "x")])) true).status = 200 ∧
     (handleNotification "POST"
        (some (.obj [("title", .str "a"), ("message", .str "x")])) true).notified = true) :=
  ⟨(notify_validation_and_dispatch
      (.obj [("title", .str ""), ("message", .str "x")]) ⟨"", "x"⟩ true rfl).1
      (Or.inl rfl),
   ((notify_validation_and_dispatch
      (.obj [("title", .str "a"), ("message", .str "x")]) ⟨"a", "x"⟩ true rfl).2
      (by decide) (by decide)).1 rfl⟩

/-! ## C10 — non-token frames get no response -/

/-- C10: a frame that fails JSON decoding, fails struct unmarshalling, or
whose `type` is anything other than `"getAccessToken"` produces no response
frame at all — neither a token nor an error frame — and the read loop simply
moves on to the subsequent frames of the same connection. -/
theorem non_token_frame_no_response
    (f : Option Json) (getToken : List String → GetTokenResult)
    (h : f = none ∨ ∃ j, f = some j ∧
      (unmarshalTokenRequest j = none ∨
       ∃ req, unmarshalTokenRequest j = some req ∧ req.type ≠ "getAccessToken")) :
    handleFrame f getToken = none ∧
    ∀ rest, handleConnection (f :: rest) getToken
      = handleConnection rest getToken := by
  have hf : handleFrame f getToken = none := by
    rcases h with rfl | ⟨j, rfl, h⟩
    · rfl
    · rcases h with h | ⟨req, hreq, hty⟩
      · simp [handleFrame, h]
      · simp [handleFrame, hreq, hty]
  exact ⟨hf, fun rest => by simp [handleConnection, hf]⟩

/-- C10 witness: a frame of type `"ping"` gets no response and does not stop
a later `getAccessToken` frame from being answered. -/
theorem non_token_frame_no_response_witness :
    handleFrame (some (.obj [("type", .str "ping")]))
        (fun _ => .ok "tok") = none ∧
    ∀ rest, handleConnection (some (.obj [("type", .str "ping")]) :: rest)
        (fun _ => .ok "tok")
      = handleConnection rest (fun _ => .ok "tok") :=
  non_token_frame_no_response _ _
    (Or.inr ⟨_, rfl, Or.inr ⟨⟨"ping", none⟩, rfl, by decide⟩⟩)

/-- C7 witness: with a probe oracle under which only port 1234 answers, the
active set is exactly the LM Studio entry, and it is enabled. -/
theorem getBoundReverseForwards_spec_witness :
    GetBoundReverseForwards (fun p => p == 1234)
      = [⟨1234, "LM Studio", true, false⟩] ∧
    (⟨1234, "LM Studio", true, false⟩ : ReversePortForward).enabled = true :=
  ⟨by rw [(getBoundReverseForwards_spec (fun p => p == 1234)).1]; rfl,
   (getBoundReverseForwards_spec (fun p => p == 1234)).2
     ⟨1234, "LM Studio", true, false⟩ (by decide)⟩
